import Mathlib

/-
Verification of the analyseX statistical analysis engines.

Shallow embedding of the two Python source files
  scripts/statistical_analysis_engine.py  (function analyze_data and its helpers)
  scripts/analysis_engine.py              (class DataAnalysisEngine)
over exact rational arithmetic.

Modelling conventions:
  * A pandas scalar cell is `Cell`: a finite numeric value (ℚ), the float NaN,
    a non-finite numeric value (float infinity), or a non-numeric (string) value.
    Python floats are modelled as exact rationals; the float literal 1.96 is
    modelled as 49/25.
  * A DataFrame is an ordered list of named columns plus a row count; the
    well-formedness predicate `DataFrame.wf` says every column has exactly
    `nrows` cells (always true for frames built by pd.DataFrame from records).
  * Library-fitted objects (scikit-learn KMeans labels, RandomForest /
    LinearRegression predictions, the elbow-chosen cluster count, the scipy
    test statistics, and square roots of rational variances) are not
    re-implemented; they enter as explicit parameters, constrained by
    hypotheses stating exactly what the library guarantees (e.g. a KMeans
    label is < n_clusters, a standard deviation squares to the variance).
  * Nested result dictionaries whose values are library-computed floats that
    no verified property mentions are modelled at the level of their key
    sets; free-text "recommendations" strings are omitted entirely.
-/

/-- A scalar cell of a loaded data frame.  `num q` is a finite numeric value,
`nan` is the float NaN (the missing-value marker pandas uses in numeric
columns), `inf` is a non-finite numeric float (JSON `Infinity`), and `str`
is any non-numeric scalar. -/
inductive Cell where
  | num (q : ℚ)
  | nan
  | inf
  | str (s : String)
deriving DecidableEq, Repr

/-- A cell counts as numeric when it lives in a float/int dtype: finite
numbers, NaN and infinities do; strings do not. -/
def Cell.isNumericCell : Cell → Bool
  | .num _ => true
  | .nan => true
  | .inf => true
  | .str _ => false

/-- Column-oriented view of a pandas DataFrame built from a record
collection: ordered named columns and the row count. -/
structure DataFrame where
  columns : List (String × List Cell)
  nrows : ℕ
deriving DecidableEq, Repr

/-- Well-formedness: every column holds one cell per row.  pd.DataFrame
always produces rectangular frames, so source-built frames satisfy this. -/
def DataFrame.wf (df : DataFrame) : Prop :=
  ∀ p ∈ df.columns, p.2.length = df.nrows

/-- Pandas `df.empty`: true when either axis has length zero. -/
def DataFrame.isEmptyDF (df : DataFrame) : Bool :=
  df.nrows == 0 || df.columns.isEmpty

/-- The column labels, `data.columns`, in order. -/
def DataFrame.colNames (df : DataFrame) : List String :=
  df.columns.map Prod.fst

/-- The cells of the column named `c` (first match; `[]` when absent). -/
def DataFrame.getCol (df : DataFrame) (c : String) : List Cell :=
  match df.columns.find? (fun p => p.1 == c) with
  | some p => p.2
  | none => []

/-- A stored column is numeric (float/int dtype) when every cell is numeric.
A column mixing numbers with strings gets object dtype and is excluded,
matching `select_dtypes(include=[np.number])`. -/
def colIsNumeric (cells : List Cell) : Bool :=
  cells.all Cell.isNumericCell

/-- Pandas `select_dtypes(include=[np.number]).columns`: names of the numeric
columns, in frame order. -/
def DataFrame.numericCols (df : DataFrame) : List String :=
  (df.columns.filter (fun p => colIsNumeric p.2)).map Prod.fst

/-- Pandas `data[cs]`: restrict to the named columns, in the order requested.
Names not present are dropped (callers only pass present names). -/
def DataFrame.select (df : DataFrame) (cs : List String) : DataFrame :=
  ⟨cs.filterMap (fun c => df.columns.find? (fun p => p.1 == c)), df.nrows⟩

/-- Pandas `series.dropna()` on a numeric column: NaN cells are removed, every
other cell (finite or infinite) is kept. -/
def dropnaCells (cells : List Cell) : List Cell :=
  cells.filter (fun c => c ≠ Cell.nan)

/-- The finite rational values of a numeric series after `dropna()`.  On a
series without infinities this is exactly the dropna'd data; theorems that
use it for arithmetic restrict to that case. -/
def dropnaQ (cells : List Cell) : List ℚ :=
  cells.filterMap (fun c => match c with | .num q => some q | _ => none)

/-- Every cell of the column is a finite number (no NaN, no infinity, no
text), so `dropnaQ` is the whole column. -/
def colFinite (df : DataFrame) (c : String) : Bool :=
  (df.getCol c).all (fun x => match x with | .num _ => true | _ => false)

/-- The full column as rationals; faithful on columns with `colFinite`. -/
def qCol (df : DataFrame) (c : String) : List ℚ :=
  dropnaQ (df.getCol c)

/-- The cell of column `c` at row `i` (NaN when out of range; in range for
well-formed frames). -/
def DataFrame.cellAt (df : DataFrame) (c : String) (i : ℕ) : Cell :=
  (df.getCol c).getD i Cell.nan

/-- Indices of the rows kept by `data[cols].dropna()`: the rows where none
of the named columns holds NaN. -/
def completeRowIdx (df : DataFrame) (cols : List String) : List ℕ :=
  (List.range df.nrows).filter (fun i => cols.all (fun c => df.cellAt c i ≠ Cell.nan))

/-- Some retained row holds a non-finite value in one of the named columns —
the condition under which scikit-learn's input validation raises. -/
def rowsHaveInf (df : DataFrame) (cols : List String) (idx : List ℕ) : Bool :=
  idx.any (fun i => cols.any (fun c => df.cellAt c i == Cell.inf))

/-- Arithmetic mean of a list of rationals (`series.mean()`; 0 on `[]`, a
junk value the theorems never rely on). -/
def qmean (xs : List ℚ) : ℚ := xs.sum / xs.length

/-- Deviations from the mean. -/
def centered (xs : List ℚ) : List ℚ := xs.map (fun x => x - qmean xs)

/-- Centered sum of squares `Σ (x - x̄)²` (the numerator of a variance). -/
def sumSq (xs : List ℚ) : ℚ := (centered xs).map (fun d => d * d) |>.sum

/-- Centered cross sum `Σ (x - x̄)(y - ȳ)` (the numerator of a covariance). -/
def crossSum (xs ys : List ℚ) : ℚ :=
  (List.zipWith (fun a b => a * b) (centered xs) (centered ys)).sum

/-! ## statistical_analysis_engine.py -/

/-- The mutable `results` sub-dictionary a `perform_*` routine merges into
the top-level result via `results.update(...)`:  the key sets of its
"insights" and "statistics" dictionaries, and the "error" entry a routine's
own `except` branch may add.  The values stored under the insight/statistic
keys are library-computed floats no claim mentions, and the free-text
"recommendations" list, are not modelled. -/
structure SubResult where
  insightKeys : List String
  statKeys : List String
  error : Option String
deriving DecidableEq, Repr

/-- The `{"insights": {}, "statistics": {}, "recommendations": []}` value a
routine returns when a precondition guard fires: no keys, no error entry. -/
def emptySub : SubResult := ⟨[], [], none⟩

/-- ASCII lower-casing of one character (what Python's `str.lower()` does
on the ASCII column names this code meets). -/
def lowerChar (c : Char) : Char :=
  if 65 ≤ c.toNat && c.toNat ≤ 90 then Char.ofNat (c.toNat + 32) else c

/-- The first list starts the second. -/
def startsWithChars : List Char → List Char → Bool
  | [], _ => true
  | _ :: _, [] => false
  | a :: as, b :: bs => a == b && startsWithChars as bs

/-- Python's substring test `pat in l` on character lists. -/
def hasSubChars (pat : List Char) : List Char → Bool
  | [] => pat.isEmpty
  | a :: t => startsWithChars pat (a :: t) || hasSubChars pat t

/-- True when the column name contains "month", "date" or "time"
(case-insensitively), the line-77 heuristic of
perform_time_series_analysis. -/
def isTimeName (s : String) : Bool :=
  let l := s.data.map lowerChar
  hasSubChars "month".data l || hasSubChars "date".data l || hasSubChars "time".data l

/-- Lines 74-82: the first column whose name matches the month/date/time
substring heuristic, else the first column (`data.columns[0]`; callers
guarantee at least one column). -/
def timeColOf (df : DataFrame) : String :=
  match df.colNames.find? (fun c => isTimeName c) with
  | some c => c
  | none => df.colNames.headD ""

/-- Lines 70-138, perform_time_series_analysis: for every numeric column
other than the time column whose dropna'd series has more than 3 values, a
statistics entry and an insights entry are produced; shorter series and the
time column itself are skipped.  The routine has no internal try/except and
never adds an "error" entry.  The per-column trend/seasonality numbers are
scipy outputs not modelled here. -/
def perform_time_series_analysis (df : DataFrame) (numeric : List String) : SubResult :=
  let tcol := timeColOf df
  let analyzed := numeric.filter
    (fun c => c ≠ tcol && (dropnaCells (df.getCol c)).length > 3)
  ⟨analyzed, analyzed, none⟩

/-- Stand-in text for the message of the ValueError scikit-learn raises when
its input validation meets a non-finite value; the verified properties only
depend on an "error" entry being present, never on its wording. -/
def sklearnNonFiniteMsg : String :=
  "Input contains infinity or a value too large"

/-- Lines 140-215, perform_regression_analysis: guards return the empty
sub-result (fewer than 2 numeric columns, or fewer than 3 rows complete in
all numeric columns after the X/y index alignment of lines 155-161).  The
try body fits a LinearRegression on the retained rows: scikit-learn raises
on a non-finite value, caught at lines 212-213 into an "error" entry;
otherwise the statistics/insights dictionaries get their fixed key sets
(lines 187-204). -/
def perform_regression_analysis (df : DataFrame) (numeric : List String) : SubResult :=
  if numeric.length < 2 then emptySub
  else
    let idx := completeRowIdx df numeric
    if idx.length < 3 then emptySub
    else if rowsHaveInf df numeric idx then
      ⟨[], [], some ("Regression analysis failed: " ++ sklearnNonFiniteMsg)⟩
    else
      ⟨["model_quality", "top_driver", "top_driver_impact", "explained_variance",
        "predictability"],
       ["target_variable", "r_squared", "intercept", "feature_importance"],
       none⟩

/-- Lines 217-299, perform_clustering_analysis: with fewer than 2 numeric
columns, or fewer than 3 rows complete in the numeric columns, the routine
returns the empty sub-result — with no "error" entry.  Otherwise the try
body standardizes `X`: scikit-learn raises on a non-finite value, caught at
lines 296-297 into an "error" entry; otherwise the statistics/insights
dictionaries get their fixed key sets (lines 278-288). -/
def perform_clustering_analysis (df : DataFrame) (numeric : List String) : SubResult :=
  if numeric.length < 2 then emptySub
  else
    let idx := completeRowIdx df numeric
    if idx.length < 3 then emptySub
    else if rowsHaveInf df numeric idx then
      ⟨[], [], some ("Clustering analysis failed: " ++ sklearnNonFiniteMsg)⟩
    else
      ⟨["data_complexity", "natural_groupings", "main_variation_explained"],
       ["pca_explained_variance", "optimal_clusters", "cluster_statistics"],
       none⟩

/-- Lines 368-414, perform_exploratory_analysis: per-column moments and the
high-variance flags are plain float computations that cannot raise on cells
of our domain (an empty `column_stats` leaves the line-391 comprehension
empty without evaluating its division), so the routine always returns its
fixed statistics/insights key sets and never adds an "error" entry. -/
def perform_exploratory_analysis (_df : DataFrame) (_numeric : List String) : SubResult :=
  ⟨["data_quality", "most_variable_columns", "analysis_readiness"],
   ["column_statistics", "high_variance_columns", "data_shape"],
   none⟩

/-- Lines 301-366, perform_statistical_tests, runs scipy normality and
correlation tests inside a try/except whose outcome depends on scipy
internals we do not model; the routine is abstracted as a parameter of type
`StatTestsModel` (its only relevant property: it returns a sub-result
rather than raising, because of the except at lines 363-364). -/
def StatTestsModel : Type := DataFrame → List String → SubResult

/-- A concrete instance of `StatTestsModel` used to close witnesses: the
fixed key sets of the routine's success path (lines 342-355). -/
def statTestsKeys : StatTestsModel := fun _ _ =>
  ⟨["normal_distributions", "significant_relationships", "data_quality"],
   ["normality_tests", "correlation_tests"],
   none⟩

/-- Lines 37-45 of analyze_data: keep the selected columns that exist in the
frame (in the requested order); when the selection is empty, or none of the
selected names exists, analyze the whole frame. -/
def analysisDataOf (df : DataFrame) (selected : List String) : DataFrame :=
  if selected.isEmpty then df
  else
    let available := selected.filter (fun c => df.colNames.contains c)
    if available.isEmpty then df else df.select available

/-- The success-shaped dictionary analyze_data returns: the fixed keys set
up at lines 27-35 (minus the unmodelled "recommendations" list), with the
insights/statistics/error entries overwritten by `results.update(sub)` at
lines 55-63. -/
structure AnalyzeResults where
  success : Bool
  data_points_analyzed : ℕ
  columns_analyzed : ℕ
  analysis_type : String
  insightKeys : List String
  statKeys : List String
  error : Option String
deriving DecidableEq, Repr

/-- The two shapes analyze_data can return: a bare one-key
`{"error": msg}` dictionary, or the success-shaped dictionary. -/
inductive TopResult where
  | errorOnly (msg : String)
  | results (r : AnalyzeResults)
deriving DecidableEq, Repr

/-- Lines 14-68, analyze_data: empty frame → the bare "No data provided"
error; no numeric column among the analyzed columns → the bare "No numeric
columns found" error; otherwise the line-27 results dictionary updated with
the dispatched routine's sub-result.  `stm` abstracts the scipy-heavy
perform_statistical_tests routine.  Within the modelled cell domain every
other routine is total (its internal exceptions are caught into its own
"error" entry), so the outer except at lines 67-68 is unreachable and the
function never raises. -/
def analyze_data (stm : StatTestsModel) (df : DataFrame)
    (analysis_type : String) (selected_columns : List String) : TopResult :=
  if df.isEmptyDF then .errorOnly "No data provided"
  else
    let ad := analysisDataOf df selected_columns
    let nc := ad.numericCols
    if nc.isEmpty then .errorOnly "No numeric columns found for analysis"
    else
      let sub :=
        if analysis_type == "time_series" || analysis_type == "time_series_forecast" then
          perform_time_series_analysis ad nc
        else if analysis_type == "regression_feature_importance" then
          perform_regression_analysis ad nc
        else if analysis_type == "pca_clustering" then
          perform_clustering_analysis ad nc
        else if analysis_type == "statistical_tests" then
          stm ad nc
        else
          perform_exploratory_analysis ad nc
      .results
        { success := true
          data_points_analyzed := df.nrows
          columns_analyzed := selected_columns.length
          analysis_type := analysis_type
          insightKeys := sub.insightKeys
          statKeys := sub.statKeys
          error := sub.error }

/-! ## analysis_engine.py (class DataAnalysisEngine) -/

/-- Lines 49-52 and 128-131: the numeric columns analyzed by
run_correlation_analysis / run_clustering_analysis — all numeric columns
when no restriction is given, else the restricted names that are numeric
columns of the frame, in the requested order. -/
def engineNumericCols (df : DataFrame) (columns : Option (List String)) : List String :=
  match columns with
  | none => df.numericCols
  | some cs => cs.filter (fun c => df.numericCols.contains c)

/-- One entry of `self.df[numeric_cols].corr()` (pandas Pearson), given an
oracle `s` for the per-column standard deviations (`(s c)² = sumSq (qCol df
c)`, `0 ≤ s c`; square roots are not rational, so the values enter as a
constrained parameter).  When either column has zero variance the float
division yields NaN, modelled as `none`. -/
def corrEntry (s : String → ℚ) (df : DataFrame) (c1 c2 : String) : Option ℚ :=
  if s c1 = 0 ∨ s c2 = 0 then none
  else some (crossSum (qCol df c1) (qCol df c2) / (s c1 * s c2))

/-- The oracle `s` really is the standard deviation of each listed column. -/
def stdSpec (s : String → ℚ) (df : DataFrame) (cs : List String) : Prop :=
  ∀ c ∈ cs, 0 ≤ s c ∧ (s c) * (s c) = sumSq (qCol df c)

/-- The success shape of run_correlation_analysis, lines 75-79: the analyzed
columns and the correlation matrix (the ranked `top_correlations` and the
summary string are derived data not modelled). -/
structure CorrOk where
  cols : List String
  entry : String → String → Option ℚ

/-- Lines 47-79, run_correlation_analysis: fewer than 2 numeric columns →
the `{'error': ...}` result; otherwise the correlation matrix of the
numeric columns. -/
def run_correlation_analysis (s : String → ℚ) (df : DataFrame)
    (columns : Option (List String)) : Except String CorrOk :=
  let nc := engineNumericCols df columns
  if nc.length < 2 then
    .error "Need at least 2 numeric columns for correlation analysis"
  else
    .ok ⟨nc, fun c1 c2 => corrEntry s df c1 c2⟩

/-- Pandas `fillna(mean)` on one column, lines 94-95: NaN cells are replaced by the
column mean of the non-missing values.  Faithful on columns without
infinities and with at least one non-missing value (an all-NaN column keeps
NaN and the subsequent fit raises out of the routine, which has no
try/except — outside the "successful analysis" domain). -/
def meanImputeCol (cells : List Cell) : List ℚ :=
  cells.map (fun c => match c with
    | .num q => q
    | _ => qmean (dropnaQ cells))

/-- scikit-learn `r2_score(y, yp) = 1 - Σ(y-yp)²/Σ(y-ȳ)²` over exact
rationals (division by a zero denominator is the junk value 0; both models
are scored by the same formula, which is all the comparison uses). -/
def r2_score (y yp : List ℚ) : ℚ :=
  1 - ((List.zipWith (fun a b => (a - b) * (a - b)) y yp).sum) / sumSq y

/-- An abstract fitted regressor: from the feature matrix (list of columns)
and the target vector, its in-sample predictions.  RandomForestRegressor
and LinearRegression fits are library calls not re-implemented. -/
def Learner : Type := List (List ℚ) → List ℚ → List ℚ

/-- The matrix `self.df[feature_columns].fillna(...)`: the mean-imputed feature matrix
of run_regression_analysis (line 94), one imputed column per feature. -/
def regMatrix (df : DataFrame) (features : List String) : List (List ℚ) :=
  features.map (fun c => meanImputeCol (df.getCol c))

/-- The mean-imputed target vector of run_regression_analysis (line 95). -/
def regTarget (df : DataFrame) (target : String) : List ℚ :=
  meanImputeCol (df.getCol target)

/-- The success shape of run_regression_analysis, lines 115-124 (the
normalized feature-importance list and summary string are RandomForest
outputs not modelled). -/
structure RegOk where
  target_column : String
  feature_columns : List String
  random_forest_r2 : ℚ
  linear_regression_r2 : ℚ
  model_comparison : String
deriving DecidableEq, Repr

/-- Lines 86-88: the default feature set of run_regression_analysis — the
caller's list, else every numeric column other than the target. -/
def regFeatures (df : DataFrame) (target_column : String)
    (feature_columns : Option (List String)) : List String :=
  match feature_columns with
  | some fs => fs
  | none => df.numericCols.filter (fun c => c ≠ target_column)

/-- Lines 81-124, run_regression_analysis: missing target or no features →
the `{'error': ...}` result; otherwise both abstract learners are fit on
the same mean-imputed matrices, both are scored by `r2_score` against the
same imputed target, and `model_comparison` is `'Random Forest'` exactly
when the random-forest R² is strictly larger (line 122). -/
def run_regression_analysis (rf lr : Learner) (df : DataFrame)
    (target_column : String) (feature_columns : Option (List String)) :
    Except String RegOk :=
  if ¬ df.colNames.contains target_column then
    .error ("Target column " ++ target_column ++ " not found")
  else
    let features := regFeatures df target_column feature_columns
    if features.length = 0 then
      .error "No feature columns available for regression"
    else
      let X := regMatrix df features
      let y := regTarget df target_column
      let rf_r2 := r2_score y (rf X y)
      let lr_r2 := r2_score y (lr X y)
      .ok { target_column := target_column
            feature_columns := features
            random_forest_r2 := rf_r2
            linear_regression_r2 := lr_r2
            model_comparison :=
              if rf_r2 > lr_r2 then "Random Forest" else "Linear Regression" }

/-- The per-cluster `percentage` fields, in cluster order: for each cluster
id `i < k`, `(rows labelled i) / n * 100`.  This is the formula of both
run_clustering_analysis (line 167, with `n = len(self.df)` and the labels
over all rows) and perform_clustering_analysis of the statistical engine
(line 268, with `n = len(X)` and the labels over the dropna'd rows). -/
def clusterPercentages (labels : List ℕ) (k : ℕ) (n : ℕ) : List ℚ :=
  (List.range k).map (fun i => ((labels.count i : ℚ) / (n : ℚ)) * 100)

/-- The success shape of run_clustering_analysis, lines 179-185, with the
per-cluster summaries reduced to their `percentage` fields (sizes, means
and deviations are derived data no claim mentions). -/
structure ClusterOk where
  n_clusters : ℕ
  percentages : List ℚ
  features_used : List String
deriving DecidableEq, Repr

/-- Lines 126-185, run_clustering_analysis: fewer than 2 numeric columns →
the `{'error': ...}` result; otherwise the cluster summary built from the
KMeans assignment.  `labels` (the `fit_predict` output, one label per frame
row, each `< k`) and `k` (caller-given or elbow-chosen) are library outputs
passed as parameters. -/
def run_clustering_analysis (labels : List ℕ) (k : ℕ) (df : DataFrame)
    (columns : Option (List String)) : Except String ClusterOk :=
  let nc := engineNumericCols df columns
  if nc.length < 2 then
    .error "Need at least 2 numeric columns for clustering"
  else
    .ok { n_clusters := k
          percentages := clusterPercentages labels k df.nrows
          features_used := nc }

/-- The index vector `x = np.arange(len(data))` as rationals. -/
def idxList (n : ℕ) : List ℚ := (List.range n).map (fun i : ℕ => (i : ℚ))

/-- The `stats.linregress` slope over exact rationals:
`Σ(x-x̄)(y-ȳ) / Σ(x-x̄)²` with `x = 0..n-1`. -/
def lrSlope (ys : List ℚ) : ℚ :=
  crossSum (idxList ys.length) ys / sumSq (idxList ys.length)

/-- The `stats.linregress` intercept: `ȳ - slope·x̄`. -/
def lrIntercept (ys : List ℚ) : ℚ :=
  qmean ys - lrSlope ys * qmean (idxList ys.length)

/-- Lines 249-251: the mean squared residual of the fitted trend,
`mean((data - (slope·x + intercept))²)`; the residual standard error of the
code is its square root. -/
def mseOf (ys : List ℚ) : ℚ :=
  ((List.zipWith (fun y x => (y - (lrSlope ys * x + lrIntercept ys)) *
      (y - (lrSlope ys * x + lrIntercept ys))) ys (idxList ys.length)).sum) /
    (ys.length : ℚ)

/-- The success shape of run_time_series_forecast, lines 256-266 (the
`r_squared` field needs the irrational correlation and the summary string
is derived; neither is modelled). -/
structure ForecastOk where
  target_column : String
  historical_data : List ℚ
  forecast : List ℚ
  forecast_upper : List ℚ
  forecast_lower : List ℚ
  trend_slope : ℚ
  periods_forecasted : ℕ
deriving DecidableEq, Repr

/-- Lines 229-266, run_time_series_forecast: missing target column or fewer
than 3 data points → the `{'error': ...}` result; otherwise the OLS trend
forecast for `periods` future indices with the ±1.96·σ band of lines
253-254.  `σ` is the residual standard error `sqrt(mse)`, an irrational
number supplied as an oracle parameter constrained by `σ·σ = mseOf data`;
the float literal 1.96 is the exact rational 49/25.  Faithful on target
columns whose non-missing values are finite. -/
def run_time_series_forecast (σ : ℚ) (df : DataFrame)
    (target_column : String) (periods : ℕ) : Except String ForecastOk :=
  if ¬ df.colNames.contains target_column then
    .error ("Target column " ++ target_column ++ " not found")
  else
    let data := dropnaQ (df.getCol target_column)
    if data.length < 3 then
      .error "Need at least 3 data points for forecasting"
    else
      let slope := lrSlope data
      let intercept := lrIntercept data
      let fc := (List.range periods).map
        (fun j : ℕ => slope * ((data.length : ℚ) + (j : ℚ)) + intercept)
      .ok { target_column := target_column
            historical_data := data
            forecast := fc
            forecast_upper := fc.map (fun v => v + 49/25 * σ)
            forecast_lower := fc.map (fun v => v - 49/25 * σ)
            trend_slope := slope
            periods_forecasted := periods }

/-- The named column exists in the frame and is a numeric column. -/
def isNumericName (df : DataFrame) (c : String) : Bool :=
  match df.columns.find? (fun p => p.1 == c) with
  | some p => colIsNumeric p.2
  | none => false

/-! ## Concrete example frames used by counterexamples and witnesses -/

/-- A frame with a single numeric column. -/
def dfOneNum : DataFrame := ⟨[("a", [.num 1, .num 2, .num 3])], 3⟩

/-- A frame with one text column and one numeric column. -/
def dfTextNum : DataFrame :=
  ⟨[("t", [.str "p", .str "q", .str "r"]), ("x", [.num 1, .num 2, .num 3])], 3⟩

/-- A one-row frame with a text column and two numeric columns. -/
def dfMixed : DataFrame := ⟨[("t", [.str "u"]), ("x", [.num 1]), ("y", [.num 2])], 1⟩

/-- Projection of the `columns_analyzed` field out of a top-level result
(`none` for the bare error shape). -/
def topColumnsAnalyzed : TopResult → Option ℕ
  | .results r => some r.columns_analyzed
  | .errorOnly _ => none

/-- A frame with a month column, a long numeric series and a numeric series
with only 2 non-missing values. -/
def dfTS : DataFrame :=
  ⟨[("month", [.num 1, .num 2, .num 3, .num 4, .num 5]),
    ("a", [.num 2, .num 4, .num 1, .num 7, .num 3]),
    ("b", [.num 1, .nan, .nan, .nan, .num 2])], 5⟩

/-- A frame with two numeric columns and three rows, for clustering. -/
def dfCluster : DataFrame :=
  ⟨[("a", [.num 1, .num 2, .num 3]), ("b", [.num 4, .num 5, .num 6])], 3⟩

/-- A one-column frame whose series [1, 0, 1, 4] has OLS trend slope 1,
intercept 0 and mean squared residual exactly 1. -/
def dfForecast : DataFrame := ⟨[("y", [.num 1, .num 0, .num 1, .num 4])], 4⟩

/-- The forecast run_time_series_forecast produces on `dfForecast` with
σ = 1 and 2 periods. -/
def forecastW : ForecastOk :=
  { target_column := "y", historical_data := [1, 0, 1, 4], forecast := [4, 5],
    forecast_upper := [149/25, 174/25], forecast_lower := [51/25, 76/25],
    trend_slope := 1, periods_forecasted := 2 }

/-- An abstract learner that predicts the training targets exactly
(R² = 1). -/
def rfW : Learner := fun _ y => y

/-- An abstract learner that predicts 0 everywhere. -/
def lrW : Learner := fun _ y => y.map (fun _ => 0)

/-- A regression example frame: feature x, target y. -/
def dfReg : DataFrame :=
  ⟨[("x", [.num 1, .num 2, .num 3]), ("y", [.num 1, .num 3, .num 4])], 3⟩

/-- The result run_regression_analysis produces on `dfReg` with the two
learners above: the exact predictor scores 1, the zero predictor -32/7. -/
def regW : RegOk :=
  { target_column := "y", feature_columns := ["x"], random_forest_r2 := 1,
    linear_regression_r2 := -32/7, model_comparison := "Random Forest" }

/-- A frame whose second numeric column holds an infinity in a complete
row, so a scikit-learn fit on it raises. -/
def dfInf : DataFrame :=
  ⟨[("a", [.num 1, .num 2, .num 3]), ("b", [.num 4, .inf, .num 6])], 3⟩

/-- A frame with a non-constant numeric column x (variance numerator 4) and
a constant numeric column y (variance 0). -/
def dfConst : DataFrame :=
  ⟨[("x", [.num 2, .num 0, .num 0, .num 2]), ("y", [.num 5, .num 5, .num 5, .num 5])], 4⟩

/-- The exact standard-deviation oracle for `dfConst`: 2 for x, 0 for y. -/
def sConst : String → ℚ := fun c => if c = "x" then 2 else 0

/-- A frame with two non-constant numeric columns, both with centered sum
of squares 4. -/
def dfCW : DataFrame :=
  ⟨[("x", [.num 2, .num 0, .num 0, .num 2]), ("y", [.num 7, .num 5, .num 5, .num 7])], 4⟩

/-- The exact standard-deviation oracle for `dfCW`: 2 for both columns. -/
def sW : String → ℚ := fun _ => 2

/-! ## Helper lemmas -/

/-- Summing a right-scaled map distributes the scalar out. -/
theorem sum_map_mul_out (l : List ℕ) (f : ℕ → ℚ) (r : ℚ) :
    (l.map (fun i => f i * r)).sum = (l.map f).sum * r := by
  induction l with
  | nil => simp
  | cons a t ih => simp [ih]; ring

/-- Summing an indicator of one value over `range k` counts its occurrence. -/
theorem indicator_range_sum (a k : ℕ) :
    ((List.range k).map (fun i => if a == i then (1 : ℕ) else 0)).sum
      = if a < k then 1 else 0 := by
  induction k with
  | zero => simp
  | succ k ih =>
    rw [List.range_succ, List.map_append, List.sum_append, ih]
    by_cases h1 : a < k
    · have h2 : a ≠ k := Nat.ne_of_lt h1
      simp [h1, h2, Nat.lt_succ_of_lt h1]
    · by_cases h2 : a = k
      · simp [h1, h2, Nat.lt_succ_self]
      · have h3 : ¬ a < k + 1 := by omega
        simp [h1, h2, h3]

/-- Pointwise sums of maps over the same list add. -/
theorem sum_map_add_out (l : List ℕ) (f g : ℕ → ℕ) :
    (l.map (fun i => f i + g i)).sum = (l.map f).sum + (l.map g).sum := by
  induction l with
  | nil => simp
  | cons a t ih => simp [ih]; ring

/-- Every row carries exactly one cluster label, so summing the per-label
counts over the label range recovers the row count. -/
theorem count_range_sum (labels : List ℕ) (k : ℕ) (h : ∀ l ∈ labels, l < k) :
    ((List.range k).map (fun i => labels.count i)).sum = labels.length := by
  induction labels with
  | nil => simp
  | cons a t ih =>
    have ha : a < k := h a (List.mem_cons_self a t)
    have ht : ∀ l ∈ t, l < k := fun l hl => h l (List.mem_cons_of_mem a hl)
    have hcons : ∀ i : ℕ, (a :: t).count i = t.count i + (if a == i then 1 else 0) :=
      fun i => List.count_cons i a t
    calc ((List.range k).map (fun i => (a :: t).count i)).sum
        = ((List.range k).map (fun i => t.count i + (if a == i then 1 else 0))).sum := by
          exact congrArg List.sum (List.map_congr_left (fun i _ => hcons i))
      _ = ((List.range k).map (fun i => t.count i)).sum
            + ((List.range k).map (fun i => if a == i then (1 : ℕ) else 0)).sum :=
          sum_map_add_out _ _ _
      _ = t.length + 1 := by rw [ih ht, indicator_range_sum, if_pos ha]
      _ = (a :: t).length := by simp

/-- The percentage list of a full assignment of `n` rows to `k` clusters
sums to exactly 100. -/
theorem clusterPercentages_sum_aux (labels : List ℕ) (k n : ℕ)
    (hlen : labels.length = n) (hn : 0 < n) (hk : ∀ l ∈ labels, l < k) :
    (clusterPercentages labels k n).sum = 100 := by
  unfold clusterPercentages
  have h1 : ∀ i : ℕ, ((labels.count i : ℚ) / (n : ℚ)) * 100
      = (labels.count i : ℚ) * (100 / (n : ℚ)) := by
    intro i; ring
  rw [List.map_congr_left (fun i _ => h1 i), sum_map_mul_out]
  have h2 : ((List.range k).map (fun i => ((labels.count i : ℕ) : ℚ))).sum
      = (((List.range k).map (fun i => labels.count i)).sum : ℕ) := by
    rw [Nat.cast_list_sum, List.map_map]; rfl
  rw [h2, count_range_sum labels k hk, hlen]
  have hn0 : (n : ℚ) ≠ 0 := Nat.cast_ne_zero.mpr (Nat.pos_iff_ne_zero.mp hn)
  field_simp

/-- Centered cross sums are symmetric. -/
theorem crossSum_comm (xs ys : List ℚ) : crossSum xs ys = crossSum ys xs := by
  unfold crossSum
  rw [List.zipWith_comm_of_comm (fun a b => a * b) (fun a b => mul_comm a b)]

/-- The centered cross sum of a list with itself is its centered sum of
squares. -/
theorem crossSum_self (xs : List ℚ) : crossSum xs xs = sumSq xs := by
  unfold crossSum sumSq
  rw [List.zipWith_same]


/-- Selecting named columns and then taking the numeric ones keeps exactly
the requested names that are numeric columns, in the requested order. -/
theorem numericCols_select (df : DataFrame) (cs : List String) :
    (df.select cs).numericCols = cs.filter (fun c => isNumericName df c) := by
  induction cs with
  | nil => rfl
  | cons c t ih =>
    show (DataFrame.numericCols
        ⟨(c :: t).filterMap (fun c => df.columns.find? (fun p => p.1 == c)), df.nrows⟩)
      = _
    rw [List.filterMap_cons]
    cases hf : df.columns.find? (fun p => p.1 == c) with
    | none =>
      have hn : isNumericName df c = false := by unfold isNumericName; rw [hf]
      simpa [List.filter_cons, hn] using ih
    | some p =>
      have hc : p.1 = c := by
        have := List.find?_some hf
        simpa using this
      have hn : isNumericName df c = colIsNumeric p.2 := by
        unfold isNumericName; rw [hf]
      rw [List.filter_cons, hn]
      unfold DataFrame.numericCols at ih ⊢
      simp only [List.filter_cons]
      cases hnum : colIsNumeric p.2 with
      | false => simpa using ih
      | true => simpa [hc] using ih

/-- With distinct column names, name lookup plus dtype test agrees with
membership in the numeric-column list. -/
theorem isNumericName_iff_mem (df : DataFrame) (h : df.colNames.Nodup)
    (c : String) : isNumericName df c = true ↔ c ∈ df.numericCols := by
  unfold isNumericName
  constructor
  · intro hn
    cases hf : df.columns.find? (fun p => p.1 == c) with
    | none => rw [hf] at hn; exact absurd hn (by simp)
    | some p =>
      rw [hf] at hn
      have hc : p.1 = c := by simpa using List.find?_some hf
      have hp : p ∈ df.columns := List.mem_of_find?_eq_some hf
      exact List.mem_map.mpr ⟨p, List.mem_filter.mpr ⟨hp, hn⟩, hc⟩
  · intro hm
    rcases List.mem_map.mp hm with ⟨p, hpf, hpc⟩
    have hp : p ∈ df.columns := (List.mem_filter.mp hpf).1
    have hnum : colIsNumeric p.2 = true := (List.mem_filter.mp hpf).2
    have hex : (df.columns.find? (fun q => q.1 == c)).isSome := by
      rw [List.find?_isSome]
      exact ⟨p, hp, by simp [hpc]⟩
    cases hf : df.columns.find? (fun q => q.1 == c) with
    | none => rw [hf] at hex; simp at hex
    | some q =>
      have hqc : q.1 = c := by simpa using List.find?_some hf
      have hq : q ∈ df.columns := List.mem_of_find?_eq_some hf
      have hnd : (df.columns.map Prod.fst).Nodup := h
      have hqp : q = p := List.inj_on_of_nodup_map hnd hq hp (by rw [hqc, hpc])
      show colIsNumeric q.2 = true
      rw [hqp]
      exact hnum

/-- Boolean form of the previous lemma. -/
theorem isNumericName_eq_contains (df : DataFrame) (h : df.colNames.Nodup)
    (c : String) : isNumericName df c = df.numericCols.contains c := by
  have h1 := isNumericName_iff_mem df h c
  have h2 : df.numericCols.contains c = true ↔ c ∈ df.numericCols := by simp
  cases hb : isNumericName df c with
  | false =>
    cases hcnt : df.numericCols.contains c with
    | false => rfl
    | true =>
      have := h1.mpr (h2.mp hcnt)
      rw [hb] at this
      exact absurd this (by simp)
  | true =>
    have := h2.mpr (h1.mp hb)
    rw [this]

/-- Numeric columns are columns. -/
theorem mem_colNames_of_mem_numericCols (df : DataFrame) (c : String)
    (hm : c ∈ df.numericCols) : c ∈ df.colNames := by
  rcases List.mem_map.mp hm with ⟨p, hpf, hpc⟩
  exact List.mem_map.mpr ⟨p, (List.mem_filter.mp hpf).1, hpc⟩

/-! ## Claims -/

/-- C1: for every invocation of analyze_data with a data frame that has no
rows, the returned result is exactly the one-key mapping
`{"error": "No data provided"}` (the `errorOnly` shape), and — the Lean
function being total — no exception escapes to the caller. -/
theorem analyze_data_empty_input (stm : StatTestsModel) (df : DataFrame)
    (ty : String) (sel : List String) (h : df.nrows = 0) :
    analyze_data stm df ty sel = .errorOnly "No data provided" := by
  unfold analyze_data
  rw [if_pos (by simp [DataFrame.isEmptyDF, h] : df.isEmptyDF = true)]

/-- Witness for C1 at a concrete empty frame. -/
theorem analyze_data_empty_input_witness :
    analyze_data statTestsKeys ⟨[], 0⟩ "time_series" [] = .errorOnly "No data provided" :=
  analyze_data_empty_input statTestsKeys ⟨[], 0⟩ "time_series" [] rfl

/-- C2, counterexample: on a frame whose numeric-column count is 1 (< 2),
the statistical engine's clustering routine (perform_clustering_analysis,
cited by the claim) returns the empty results dictionary with NO "error"
key, contradicting the claim that every cited clustering analysis returns a
result containing an 'error' key. -/
theorem low_columns_counterexample :
    dfOneNum.numericCols.length < 2
  ∧ perform_clustering_analysis dfOneNum ["a"] = emptySub
  ∧ (perform_clustering_analysis dfOneNum ["a"]).error = none := by
  refine ⟨by decide, by decide, by decide⟩

/-- C2, amended: with fewer than 2 numeric columns, analysis_engine.py's
run_correlation_analysis and run_clustering_analysis return the
`{'error': ...}` result, while statistical_analysis_engine.py's
perform_clustering_analysis returns the empty results dictionary without an
"error" key; all three are total (never raise). -/
theorem low_columns_amended :
    (∀ (s : String → ℚ) (df : DataFrame) (cols : Option (List String)),
       (engineNumericCols df cols).length < 2 →
       run_correlation_analysis s df cols
         = .error "Need at least 2 numeric columns for correlation analysis")
  ∧ (∀ (labels : List ℕ) (k : ℕ) (df : DataFrame) (cols : Option (List String)),
       (engineNumericCols df cols).length < 2 →
       run_clustering_analysis labels k df cols
         = .error "Need at least 2 numeric columns for clustering")
  ∧ (∀ (df : DataFrame) (nc : List String), nc.length < 2 →
       perform_clustering_analysis df nc = emptySub) := by
  refine ⟨?_, ?_, ?_⟩
  · intro s df cols h
    simp [run_correlation_analysis, h]
  · intro labels k df cols h
    simp [run_clustering_analysis, h]
  · intro df nc h
    simp [perform_clustering_analysis, h]

/-- Witness for the amended C2 at concrete inputs. -/
theorem low_columns_amended_witness :
    run_correlation_analysis (fun _ => 0) dfOneNum (some ["a"])
      = .error "Need at least 2 numeric columns for correlation analysis"
  ∧ run_clustering_analysis [] 2 dfOneNum (some ["a"])
      = .error "Need at least 2 numeric columns for clustering"
  ∧ perform_clustering_analysis dfOneNum ["a"] = emptySub :=
  ⟨low_columns_amended.1 (fun _ => 0) dfOneNum (some ["a"]) (by decide),
   low_columns_amended.2.1 [] 2 dfOneNum (some ["a"]) (by decide),
   low_columns_amended.2.2 dfOneNum ["a"] (by decide)⟩

/-- C3, counterexample: dfTextNum has the numeric column "x", and the
restriction ["t"] has empty intersection with the numeric columns, yet
analyze_data does not fall back to the numeric columns — it fails with the
"No numeric columns found" error (pandas keeps the existing text column
"t", which then has no numeric dtype). -/
theorem analyzed_columns_counterexample :
    dfTextNum.numericCols = ["x"]
  ∧ (["t"].filter (fun c => dfTextNum.numericCols.contains c)) = []
  ∧ analyze_data statTestsKeys dfTextNum "summary" ["t"]
      = .errorOnly "No numeric columns found for analysis" := by
  refine ⟨by decide, by decide, by decide⟩

/-- C3, amended: the analyzed set is the numeric columns intersected with
the restriction (in the restriction's order); analyze_data falls back to
the whole frame only when NO restricted name exists among the frame's
columns; when restricted names exist but none is numeric, analyze_data
errors out instead of falling back, and run_correlation_analysis likewise
errors whenever the intersection has fewer than 2 columns. -/
theorem analyzed_columns_amended :
    (∀ (df : DataFrame) (sel : List String), df.colNames.Nodup → sel ≠ [] →
       sel.filter (fun c => df.colNames.contains c) ≠ [] →
       (analysisDataOf df sel).numericCols
         = sel.filter (fun c => df.numericCols.contains c))
  ∧ (∀ (df : DataFrame) (sel : List String),
       sel.filter (fun c => df.colNames.contains c) = [] →
       (analysisDataOf df sel).numericCols = df.numericCols)
  ∧ (∀ (df : DataFrame) (cs : List String),
       engineNumericCols df (some cs)
         = cs.filter (fun c => df.numericCols.contains c))
  ∧ (∀ (s : String → ℚ) (df : DataFrame) (cs : List String),
       (cs.filter (fun c => df.numericCols.contains c)).length < 2 →
       run_correlation_analysis s df (some cs)
         = .error "Need at least 2 numeric columns for correlation analysis") := by
  refine ⟨?_, ?_, ?_, ?_⟩
  · intro df sel hnd hsel hav
    have hselE : sel.isEmpty = false := List.isEmpty_eq_false.mpr hsel
    have havE : (sel.filter (fun c => df.colNames.contains c)).isEmpty = false :=
      List.isEmpty_eq_false.mpr hav
    unfold analysisDataOf
    rw [if_neg (by rw [hselE]; exact Bool.false_ne_true)]
    show (if (sel.filter (fun c => df.colNames.contains c)).isEmpty then df
        else df.select (sel.filter (fun c => df.colNames.contains c))).numericCols = _
    rw [if_neg (by rw [havE]; exact Bool.false_ne_true)]
    rw [numericCols_select, List.filter_filter]
    apply List.filter_congr
    intro c _
    rw [isNumericName_eq_contains df hnd c]
    cases hb : df.numericCols.contains c with
    | false => rfl
    | true =>
      have hmem : c ∈ df.numericCols := by simpa using hb
      have hnm : df.colNames.contains c = true := by
        simpa using mem_colNames_of_mem_numericCols df c hmem
      show df.colNames.contains c = true
      exact hnm
  · intro df sel h
    unfold analysisDataOf
    by_cases hs : sel.isEmpty
    · rw [if_pos hs]
    · rw [if_neg hs]
      show (if (sel.filter (fun c => df.colNames.contains c)).isEmpty then df
          else df.select (sel.filter (fun c => df.colNames.contains c))).numericCols = _
      rw [if_pos (List.isEmpty_iff.mpr h)]
  · intro df cs
    rfl
  · intro s df cs h
    exact if_pos h

/-- Witness for the amended C3 at concrete inputs. -/
theorem analyzed_columns_amended_witness :
    (analysisDataOf dfMixed ["y", "t"]).numericCols = ["y"]
  ∧ (analysisDataOf dfMixed ["zz"]).numericCols = dfMixed.numericCols
  ∧ engineNumericCols dfMixed (some ["y", "t"]) = ["y"]
  ∧ run_correlation_analysis (fun _ => 0) dfMixed (some ["t", "x"])
      = .error "Need at least 2 numeric columns for correlation analysis" := by
  refine ⟨?_, ?_, ?_, ?_⟩
  · have h := analyzed_columns_amended.1 dfMixed ["y", "t"]
      (by decide) (by decide) (by decide)
    rw [h]; decide
  · exact analyzed_columns_amended.2.1 dfMixed ["zz"] (by decide)
  · have h := analyzed_columns_amended.2.2.1 dfMixed ["y", "t"]
    rw [h]; decide
  · exact analyzed_columns_amended.2.2.2 (fun _ => 0) dfMixed ["t", "x"] (by decide)

/-- A confidence band built by mapping `± c` over the point forecasts is
symmetric, with half-width exactly `c`. -/
theorem band_symm_aux (fc : List ℚ) (c : ℚ) (i : ℕ) (hi : i < fc.length) :
    ((fc.map (fun v => v + c)).getD i 0 - fc.getD i 0
      = fc.getD i 0 - (fc.map (fun v => v - c)).getD i 0)
  ∧ (fc.map (fun v => v + c)).getD i 0 - fc.getD i 0 = c := by
  have h1 : (fc.map (fun v => v + c)).getD i 0 = fc.getD i 0 + c := by
    rw [List.getD_eq_getElem _ _ (by rw [List.length_map]; exact hi),
        List.getD_eq_getElem _ _ hi, List.getElem_map]
  have h2 : (fc.map (fun v => v - c)).getD i 0 = fc.getD i 0 - c := by
    rw [List.getD_eq_getElem _ _ (by rw [List.length_map]; exact hi),
        List.getD_eq_getElem _ _ hi, List.getElem_map]
  rw [h1, h2]
  constructor <;> ring

/-- C4: for every successful time-series forecast (where `σ` is the
residual standard error: `σ·σ = mse`, `σ ≥ 0`), each forecasted period has
`forecast_upper[i] - forecast[i] = forecast[i] - forecast_lower[i]`, both
sides equal to `1.96·σ`. -/
theorem forecast_band_symmetric (σ : ℚ) (df : DataFrame) (target : String)
    (periods : ℕ) (r : ForecastOk)
    (hok : run_time_series_forecast σ df target periods = .ok r)
    (_hσ0 : 0 ≤ σ) (_hσ : σ * σ = mseOf (dropnaQ (df.getCol target)))
    (i : ℕ) (hi : i < periods) :
    (r.forecast_upper.getD i 0 - r.forecast.getD i 0
      = r.forecast.getD i 0 - r.forecast_lower.getD i 0)
  ∧ r.forecast_upper.getD i 0 - r.forecast.getD i 0 = 49/25 * σ := by
  simp only [run_time_series_forecast] at hok
  by_cases h1 : df.colNames.contains target
  · rw [if_neg (not_not_intro h1)] at hok
    by_cases h2 : (dropnaQ (df.getCol target)).length < 3
    · rw [if_pos h2] at hok
      exact absurd hok (by simp)
    · rw [if_neg h2] at hok
      injection hok with hok
      cases hok
      refine band_symm_aux
        ((List.range periods).map (fun j : ℕ => lrSlope (dropnaQ (df.getCol target)) *
          (((dropnaQ (df.getCol target)).length : ℚ) + (j : ℚ)) +
          lrIntercept (dropnaQ (df.getCol target)))) (49/25 * σ) i ?_
      rw [List.length_map, List.length_range]
      exact hi
  · rw [if_pos h1] at hok
    exact absurd hok (by simp)

/-- Witness for C4 on a concrete frame whose residual standard error is
exactly 1. -/
theorem forecast_band_symmetric_witness :
    run_time_series_forecast 1 dfForecast "y" 2 = .ok forecastW
  ∧ (forecastW.forecast_upper.getD 0 0 - forecastW.forecast.getD 0 0
      = forecastW.forecast.getD 0 0 - forecastW.forecast_lower.getD 0 0)
  ∧ forecastW.forecast_upper.getD 0 0 - forecastW.forecast.getD 0 0 = 49/25 * 1 := by
  have hd : dropnaQ (dfForecast.getCol "y") = [1, 0, 1, 4] := rfl
  have hr4 : List.range 4 = [0, 1, 2, 3] := rfl
  have hslope : lrSlope [1, 0, 1, 4] = 1 := by
    norm_num [lrSlope, idxList, crossSum, sumSq, centered, qmean, hr4]
  have hic : lrIntercept [1, 0, 1, 4] = 0 := by
    norm_num [lrIntercept, hslope, idxList, qmean, hr4]
  have hmse : mseOf (dropnaQ (dfForecast.getCol "y")) = 1 := by
    rw [hd]
    norm_num [mseOf, hslope, hic, idxList, hr4]
  have hrun : run_time_series_forecast 1 dfForecast "y" 2 = .ok forecastW := by
    simp only [run_time_series_forecast]
    rw [if_neg (not_not_intro
      (show dfForecast.colNames.contains "y" = true from rfl))]
    rw [hd]
    rw [if_neg (show ¬ ([(1 : ℚ), 0, 1, 4].length < 3) by norm_num)]
    rw [Except.ok.injEq]
    unfold forecastW
    rw [ForecastOk.mk.injEq]
    refine ⟨rfl, rfl, ?_, ?_, ?_, by rw [hslope], rfl⟩
    · norm_num [hslope, hic, show List.range 2 = [0, 1] from rfl]
    · norm_num [hslope, hic, show List.range 2 = [0, 1] from rfl]
    · norm_num [hslope, hic, show List.range 2 = [0, 1] from rfl]
  have h := forecast_band_symmetric 1 dfForecast "y" 2 forecastW hrun
    (by norm_num) (by rw [hmse]; norm_num) 0 (by norm_num)
  exact ⟨hrun, h.1, h.2⟩

/-- C7: cluster percentages sum to exactly 100, both for
run_clustering_analysis of analysis_engine.py (whose KMeans labels cover
every frame row) and for the shared percentage formula used by
perform_clustering_analysis of the statistical engine over its retained
rows: every analyzed row gets exactly one label below the cluster count. -/
theorem cluster_percentages_sum_100 :
    (∀ (labels : List ℕ) (k : ℕ) (df : DataFrame) (cols : Option (List String))
       (r : ClusterOk), run_clustering_analysis labels k df cols = .ok r →
       labels.length = df.nrows → 0 < df.nrows → (∀ l ∈ labels, l < k) →
       r.percentages.sum = 100)
  ∧ (∀ (labels : List ℕ) (k n : ℕ), labels.length = n → 0 < n →
       (∀ l ∈ labels, l < k) → (clusterPercentages labels k n).sum = 100) := by
  constructor
  · intro labels k df cols r hok hlen hn hk
    simp only [run_clustering_analysis] at hok
    by_cases hg : (engineNumericCols df cols).length < 2
    · rw [if_pos hg] at hok
      exact absurd hok (by simp)
    · rw [if_neg hg] at hok
      injection hok with hok
      cases hok
      exact clusterPercentages_sum_aux labels k df.nrows hlen hn hk
  · intro labels k n h1 h2 h3
    exact clusterPercentages_sum_aux labels k n h1 h2 h3

/-- Witness for C7 with a concrete full assignment of 3 rows to 2 clusters. -/
theorem cluster_percentages_sum_100_witness :
    run_clustering_analysis [0, 1, 0] 2 dfCluster none
      = .ok { n_clusters := 2, percentages := clusterPercentages [0, 1, 0] 2 3,
              features_used := ["a", "b"] }
  ∧ (clusterPercentages [0, 1, 0] 2 3).sum = 100 :=
  ⟨by rfl,
   cluster_percentages_sum_100.2 [0, 1, 0] 2 3 rfl (by norm_num) (by decide)⟩

/-- C9: for every non-empty frame whose analyzed columns keep at least one
numeric column, the success-shaped result of analyze_data carries
`columns_analyzed = len(selected_columns)` — the length of the selection
as given, even when selected names are absent from the frame — so it can
differ from the number of columns actually analyzed. -/
theorem columns_analyzed_is_selection_length (stm : StatTestsModel)
    (df : DataFrame) (ty : String) (sel : List String)
    (h1 : df.isEmptyDF = false)
    (h2 : (analysisDataOf df sel).numericCols ≠ []) :
    ∃ r, analyze_data stm df ty sel = .results r
      ∧ r.columns_analyzed = sel.length ∧ r.success = true := by
  have h2e : (analysisDataOf df sel).numericCols.isEmpty = false :=
    List.isEmpty_eq_false.mpr h2
  simp only [analyze_data]
  rw [if_neg (by rw [h1]; exact Bool.false_ne_true),
      if_neg (by rw [h2e]; exact Bool.false_ne_true)]
  exact ⟨_, rfl, rfl, rfl⟩

/-- Witness for C9: two selected names, only one present and numeric, yet
`columns_analyzed` is 2. -/
theorem columns_analyzed_witness :
    topColumnsAnalyzed (analyze_data statTestsKeys dfMixed "summary" ["x", "zzz"])
      = some 2 := by
  obtain ⟨r, hr, hc, _⟩ := columns_analyzed_is_selection_length statTestsKeys
    dfMixed "summary" ["x", "zzz"] (by decide) (by decide)
  rw [hr]
  simp [topColumnsAnalyzed, hc]

/-- C10: in the time-series analysis, the chosen time column is excluded
from the per-series statistics and insights, any numeric series with 3 or
fewer non-missing values is omitted from both, and no "error" entry is ever
produced. -/
theorem time_series_exclusions (df : DataFrame) (nc : List String) :
    (timeColOf df ∉ (perform_time_series_analysis df nc).statKeys
      ∧ timeColOf df ∉ (perform_time_series_analysis df nc).insightKeys)
  ∧ (∀ c ∈ nc, (dropnaCells (df.getCol c)).length ≤ 3 →
      c ∉ (perform_time_series_analysis df nc).statKeys
      ∧ c ∉ (perform_time_series_analysis df nc).insightKeys)
  ∧ (perform_time_series_analysis df nc).error = none := by
  have key : ∀ x, x ∈ (perform_time_series_analysis df nc).statKeys ↔
      (x ∈ nc ∧ (x ≠ timeColOf df ∧ 3 < (dropnaCells (df.getCol x)).length)) := by
    intro x
    constructor
    · intro h
      have h2 := List.mem_filter.mp h
      refine ⟨h2.1, ?_⟩
      simpa using h2.2
    · intro h
      apply List.mem_filter.mpr
      exact ⟨h.1, by simpa using h.2⟩
  refine ⟨⟨?_, ?_⟩, ?_, rfl⟩
  · intro hmem
    exact ((key _).mp hmem).2.1 rfl
  · intro hmem
    exact ((key _).mp hmem).2.1 rfl
  · intro c hc hlen
    constructor <;> intro hmem <;>
      { have h3 := ((key c).mp hmem).2.2
        omega }

/-- Witness for C10 on a concrete frame: "month" is the time column and is
skipped, "b" has only 2 non-missing values and is skipped, and there is no
error entry. -/
theorem time_series_exclusions_witness :
    "month" ∉ (perform_time_series_analysis dfTS ["month", "a", "b"]).statKeys
  ∧ "b" ∉ (perform_time_series_analysis dfTS ["month", "a", "b"]).statKeys
  ∧ "a" ∈ (perform_time_series_analysis dfTS ["month", "a", "b"]).statKeys
  ∧ (perform_time_series_analysis dfTS ["month", "a", "b"]).error = none := by
  have h := time_series_exclusions dfTS ["month", "a", "b"]
  have htc : timeColOf dfTS = "month" := by decide
  exact ⟨htc ▸ h.1.1, (h.2.1 "b" (by decide) (by decide)).1, by decide, h.2.2⟩

/-- C5, amended: the correlation matrix of run_correlation_analysis is
symmetric for every pair of columns (for any standard-deviation oracle),
and a diagonal entry equals 1.0 exactly when the column's variance is
nonzero; for a constant column the float division 0/0 makes the diagonal
entry NaN (`none`), not 1.0. -/
theorem corr_matrix_symm_diag (s : String → ℚ) (df : DataFrame)
    (cols : Option (List String)) (m : CorrOk)
    (hok : run_correlation_analysis s df cols = .ok m) :
    (∀ c1 c2, m.entry c1 c2 = m.entry c2 c1)
  ∧ (stdSpec s df m.cols →
      ∀ c ∈ m.cols, sumSq (qCol df c) ≠ 0 → m.entry c c = some 1) := by
  simp only [run_correlation_analysis] at hok
  by_cases hg : (engineNumericCols df cols).length < 2
  · rw [if_pos hg] at hok
    exact absurd hok (by simp)
  · rw [if_neg hg] at hok
    injection hok with hok
    cases hok
    constructor
    · intro c1 c2
      show corrEntry s df c1 c2 = corrEntry s df c2 c1
      unfold corrEntry
      by_cases h0 : s c1 = 0 ∨ s c2 = 0
      · rw [if_pos h0, if_pos (Or.symm h0)]
      · rw [if_neg h0, if_neg (fun hh => h0 (Or.symm hh))]
        rw [crossSum_comm (qCol df c1) (qCol df c2), mul_comm (s c1) (s c2)]
    · intro hsp c hc h0
      obtain ⟨hs0, hss⟩ := hsp c hc
      have hsne : s c ≠ 0 := by
        intro hz
        apply h0
        rw [← hss, hz, mul_zero]
      show corrEntry s df c c = some 1
      unfold corrEntry
      rw [if_neg (fun hh => hh.elim hsne hsne)]
      rw [crossSum_self, ← hss, div_self (mul_ne_zero hsne hsne)]

/-- C5, counterexample: on `dfConst` (two numeric columns, y constant) with
the exact standard-deviation oracle, the correlation analysis succeeds but
the diagonal entry for the constant column y is NaN (`none`), not 1.0. -/
theorem corr_diag_counterexample :
    stdSpec sConst dfConst ["x", "y"]
  ∧ run_correlation_analysis sConst dfConst none
      = .ok ⟨["x", "y"], fun c1 c2 => corrEntry sConst dfConst c1 c2⟩
  ∧ corrEntry sConst dfConst "y" "y" = none := by
  refine ⟨?_, rfl, ?_⟩
  · intro c hc
    have hx : qCol dfConst "x" = [2, 0, 0, 2] := rfl
    have hy : qCol dfConst "y" = [5, 5, 5, 5] := rfl
    rcases List.mem_cons.mp hc with rfl | hc2
    · refine ⟨by norm_num [sConst], ?_⟩
      rw [hx, show sConst "x" = 2 from rfl]
      norm_num [sumSq, centered, qmean]
    · rcases List.mem_cons.mp hc2 with rfl | h3
      · refine ⟨by rw [show sConst "y" = 0 from rfl], ?_⟩
        rw [hy, show sConst "y" = 0 from rfl]
        norm_num [sumSq, centered, qmean]
      · exact absurd h3 (List.not_mem_nil c)
  · unfold corrEntry
    rw [if_pos (Or.inl (show sConst "y" = 0 from rfl))]

/-- Witness for the amended C5 on a frame with two non-constant columns. -/
theorem corr_matrix_witness :
    corrEntry sW dfCW "x" "y" = corrEntry sW dfCW "y" "x"
  ∧ corrEntry sW dfCW "x" "x" = some 1 := by
  have h := corr_matrix_symm_diag sW dfCW none
    ⟨["x", "y"], fun c1 c2 => corrEntry sW dfCW c1 c2⟩ rfl
  refine ⟨h.1 "x" "y", ?_⟩
  refine h.2 ?_ "x" (show "x" ∈ ["x", "y"] by decide) ?_
  · intro c hc
    refine ⟨by norm_num [sW], ?_⟩
    show (2 : ℚ) * 2 = sumSq (qCol dfCW c)
    rcases List.mem_cons.mp hc with rfl | hc2
    · rw [show qCol dfCW "x" = [2, 0, 0, 2] from rfl]
      norm_num [sumSq, centered, qmean]
    · rcases List.mem_cons.mp hc2 with rfl | h3
      · rw [show qCol dfCW "y" = [7, 5, 5, 7] from rfl]
        norm_num [sumSq, centered, qmean]
      · exact absurd h3 (List.not_mem_nil c)
  · rw [show qCol dfCW "x" = [2, 0, 0, 2] from rfl]
    norm_num [sumSq, centered, qmean]

/-- C6: every successful regression analysis scores both abstract learners
with the same `r2_score` on the same mean-imputed feature matrix and
target vector, and `model_comparison` names a model whose R² is the
maximum of the two (Random Forest exactly when its R² is strictly
larger). -/
theorem model_comparison_best (rf lr : Learner) (df : DataFrame)
    (target : String) (fcols : Option (List String)) (r : RegOk)
    (hok : run_regression_analysis rf lr df target fcols = .ok r) :
    r.random_forest_r2 = r2_score (regTarget df target)
        (rf (regMatrix df r.feature_columns) (regTarget df target))
  ∧ r.linear_regression_r2 = r2_score (regTarget df target)
        (lr (regMatrix df r.feature_columns) (regTarget df target))
  ∧ (r.model_comparison = "Random Forest" ∨ r.model_comparison = "Linear Regression")
  ∧ (if r.model_comparison = "Random Forest" then r.random_forest_r2
      else r.linear_regression_r2)
      = max r.random_forest_r2 r.linear_regression_r2 := by
  simp only [run_regression_analysis] at hok
  by_cases h1 : df.colNames.contains target
  · rw [if_neg (not_not_intro h1)] at hok
    by_cases h2 : (regFeatures df target fcols).length = 0
    · rw [if_pos h2] at hok
      exact absurd hok (by simp)
    · rw [if_neg h2] at hok
      injection hok with hok
      cases hok
      set X := regMatrix df (regFeatures df target fcols)
      set y := regTarget df target
      set A := r2_score y (rf X y)
      set B := r2_score y (lr X y)
      refine ⟨rfl, rfl, ?_, ?_⟩
      · by_cases hgt : A > B
        · left
          show (if A > B then "Random Forest" else "Linear Regression") = "Random Forest"
          rw [if_pos hgt]
        · right
          show (if A > B then "Random Forest" else "Linear Regression") = "Linear Regression"
          rw [if_neg hgt]
      · by_cases hgt : A > B
        · have hmc : (if A > B then "Random Forest" else "Linear Regression")
              = "Random Forest" := if_pos hgt
          show (if (if A > B then "Random Forest" else "Linear Regression")
              = "Random Forest" then A else B) = max A B
          rw [hmc, if_pos rfl, max_eq_left (le_of_lt hgt)]
        · have hmc : (if A > B then "Random Forest" else "Linear Regression")
              = "Linear Regression" := if_neg hgt
          show (if (if A > B then "Random Forest" else "Linear Regression")
              = "Random Forest" then A else B) = max A B
          rw [hmc, if_neg (by decide), max_eq_right (not_lt.mp hgt)]
  · rw [if_pos h1] at hok
    exact absurd hok (by simp)

/-- Witness for C6 on a concrete frame with an exact learner (R² = 1) and a
zero learner (R² = -32/7). -/
theorem model_comparison_witness :
    run_regression_analysis rfW lrW dfReg "y" none = .ok regW
  ∧ (if regW.model_comparison = "Random Forest" then regW.random_forest_r2
      else regW.linear_regression_r2)
      = max regW.random_forest_r2 regW.linear_regression_r2 := by
  have hy : regTarget dfReg "y" = [1, 3, 4] := rfl
  have hA : r2_score [1, 3, 4] (rfW (regMatrix dfReg ["x"]) [1, 3, 4]) = 1 := by
    show r2_score [1, 3, 4] [1, 3, 4] = 1
    norm_num [r2_score, sumSq, centered, qmean]
  have hB : r2_score [1, 3, 4] (lrW (regMatrix dfReg ["x"]) [1, 3, 4]) = -32/7 := by
    show r2_score [1, 3, 4] ([(1 : ℚ), 3, 4].map (fun _ => 0)) = -32/7
    norm_num [r2_score, sumSq, centered, qmean]
  have hfeat : regFeatures dfReg "y" none = ["x"] := rfl
  have hrun : run_regression_analysis rfW lrW dfReg "y" none = .ok regW := by
    simp only [run_regression_analysis]
    rw [if_neg (not_not_intro (show dfReg.colNames.contains "y" = true from rfl))]
    rw [if_neg (show ¬ ((regFeatures dfReg "y" none).length = 0) from by decide)]
    rw [Except.ok.injEq]
    unfold regW
    rw [RegOk.mk.injEq]
    refine ⟨rfl, hfeat, ?_, ?_, ?_⟩
    · rw [hfeat, hy]
      exact hA
    · rw [hfeat, hy]
      exact hB
    · rw [hfeat, hy, hA, hB]
      rw [if_pos (by norm_num)]
  refine ⟨hrun, ?_⟩
  exact (model_comparison_best rfW lrW dfReg "y" none regW hrun).2.2.2

/-- C8: there is an input on which analyze_data returns a result carrying
both `success: True` and a nested "error" entry: on `dfInf`, the clustering
routine's scikit-learn fit meets an infinity and raises, the exception is
caught at lines 296-297 into `results["error"]`, and analyze_data's
`results.update(...)` merges that entry into the success-shaped result
instead of replacing it. -/
theorem success_with_nested_error :
    ∃ r, analyze_data statTestsKeys dfInf "pca_clustering" [] = .results r
      ∧ r.success = true ∧ r.error.isSome = true :=
  ⟨_, rfl, rfl, rfl⟩
